import Mathlib

/-!
Shallow embedding of the rlua string handle (`src/string.rs`) together with the
stack-discipline collaborators it uses (`stack_guard`, `check_stack`,
`LuaRef`/`push_ref`, and the Lua C API calls `lua_type`, `lua_tolstring`,
`lua_pop`).  Only `string.rs` is in the repository snapshot; the collaborators
are modelled from the specification (sections 4.1, 4.2 and 6), as marked on
each definition.

Modelling conventions:
* Lua VM state is a record `Vm` holding the evaluation stack (head = top),
  the registry backing long-lived references, and the stack capacity.
* A binding computation `M a` threads the VM state, emits a trace of the VM
  primitives it invokes (used to state the "performs exactly these steps"
  property), and finishes in one of three channels: `ok` (normal value),
  `err` (recoverable typed error, Rust `Err`), or `fatal` (internal
  assertion failure / abort, Rust `lua_internal_assert!` or panic).
* Byte strings are `List Nat` with each byte below 256; a Rust `&str` is
  modelled by the UTF-8-valid byte list it points at.
-/

/-- Abbreviation for the Lean string type, usable below where `String` refers
to the handle type. -/
abbrev Str := String

namespace rlua

/-- A Lua value, as far as the string handle needs to distinguish values:
the type tag and, for strings, the content bytes. -/
inductive LuaValue where
  | nil : LuaValue
  | boolean : Bool → LuaValue
  | number : Int → LuaValue
  | str : List Nat → LuaValue
  | table : Nat → LuaValue
deriving DecidableEq, Repr

/-- Lua runtime type tags (`LUA_TNIL`, `LUA_TSTRING`, ...; `tnone` is
`LUA_TNONE`, returned for an invalid stack index). -/
inductive LuaTypeTag where
  | tnone | tnil | tboolean | tnumber | tstring | ttable
deriving DecidableEq, Repr

/-- The runtime type tag of a value. -/
def lua_type_of : LuaValue → LuaTypeTag
  | LuaValue.nil => LuaTypeTag.tnil
  | LuaValue.boolean _ => LuaTypeTag.tboolean
  | LuaValue.number _ => LuaTypeTag.tnumber
  | LuaValue.str _ => LuaTypeTag.tstring
  | LuaValue.table _ => LuaTypeTag.ttable

/-- Modelled from the spec: the VM instance owning the evaluation stack
(head of `stack` is the top), the long-lived registry (collector-visible
root set, an association list from slot id to value), and the maximum
stack capacity used by the pre-flight growth check. -/
structure Vm where
  stack : List LuaValue
  registry : List (Nat × LuaValue)
  capacity : Nat
deriving DecidableEq, Repr

/-- One invocation of a VM primitive, recorded so that "performs exactly
these steps in order" can be stated as a trace equality. -/
inductive VmEvent where
  | guard_open : Nat → Nat → VmEvent
  | grow_stack : Nat → VmEvent
  | push_registered : Nat → VmEvent
  | type_check : LuaTypeTag → VmEvent
  | read_string : Nat → VmEvent
  | pop : Nat → VmEvent
  | guard_close : VmEvent
deriving DecidableEq, Repr

/-- The recoverable, typed error channel of the binding
(`Error::FromLuaConversionError { from, to, message }`). -/
inductive Error where
  | FromLuaConversionError : Str → Str → Option Str → Error
deriving DecidableEq, Repr

/-- Result channel of a binding computation: normal value, recoverable
typed error (Rust `Err`), or fatal internal assertion / abort. -/
inductive Res (α : Type) where
  | ok : α → Res α
  | err : Error → Res α
  | fatal : Str → Res α
deriving DecidableEq, Repr

/-- A binding computation: takes the VM state, returns the updated state,
the trace of VM primitives invoked, and the result. -/
def M (α : Type) : Type := Vm → Vm × List VmEvent × Res α

/-- Return a pure value: no state change, no events. -/
def M.pure (a : α) : M α := fun st => (st, [], Res.ok a)

/-- Sequence two computations; `err` and `fatal` short-circuit, keeping the
state at the point of failure. -/
def M.bind (x : M α) (f : α → M β) : M β := fun st =>
  match x st with
  | (st1, tr, Res.ok a) =>
      match f a st1 with
      | (st2, tr2, r) => (st2, tr ++ tr2, r)
  | (st1, tr, Res.err e) => (st1, tr, Res.err e)
  | (st1, tr, Res.fatal m) => (st1, tr, Res.fatal m)

instance instMonadM : Monad M where
  pure := M.pure
  bind := M.bind

/-- Unfolding lemma: monadic bind on `M` is `M.bind`. -/
@[simp] theorem bind_def (x : M α) (f : α → M β) : x >>= f = M.bind x f := rfl

/-- Unfolding lemma: monadic pure on `M` is `M.pure`. -/
@[simp] theorem pure_def (a : α) : (Pure.pure a : M α) = M.pure a := rfl

/-- Raise the recoverable error channel (Rust: returning `Err(e)`). -/
def raise (e : Error) : M α := fun st => (st, [], Res.err e)

/-- The value at a Lua stack index: negative indices count from the top
(`-1` is the top), positive indices from the bottom (1-based). -/
def stackValueAt (st : Vm) (idx : Int) : Option LuaValue :=
  if idx < 0 then st.stack.get? (idx.natAbs - 1)
  else if 1 ≤ idx ∧ idx ≤ st.stack.length then
    st.stack.get? (st.stack.length - idx.toNat)
  else none

/-- Modelled from the spec: `ensure_stack_capacity` / the rlua `check_stack` —
pre-flight check that the stack can grow by `n` slots; failure is fatal
(the binding cannot recover from the VM refusing to grow its stack). -/
def check_stack (n : Nat) : M Unit := fun st =>
  if st.stack.length + n ≤ st.capacity then (st, [VmEvent.grow_stack n], Res.ok ())
  else (st, [VmEvent.grow_stack n], Res.fatal ("stack overflow"))

/-- Modelled from the spec: a `ManagedReference` — the registry slot id of a
long-lived, collector-visible reference to a VM value (`types::LuaRef`). -/
structure LuaRef where
  registry_id : Nat
deriving DecidableEq, Repr

/-- Modelled from the spec: `ManagedReference::push` (`lua.push_ref`) —
pushes the registered value onto the top of the stack; a pure read of the
registry.  An unregistered slot pushes `nil` (as the Lua `lua_rawgeti` call does
for an empty registry slot). -/
def push_ref (r : LuaRef) : M Unit := fun st =>
  match st.registry.lookup r.registry_id with
  | some v =>
      ({ st with stack := v :: st.stack }, [VmEvent.push_registered r.registry_id], Res.ok ())
  | none =>
      ({ st with stack := LuaValue.nil :: st.stack },
       [VmEvent.push_registered r.registry_id], Res.ok ())

/-- Runtime type query `runtime_type_of` (`ffi::lua_type`): the type tag of
the value at the given stack index (`LUA_TNONE` for an invalid index). -/
def lua_type (idx : Int) : M LuaTypeTag := fun st =>
  match stackValueAt st idx with
  | some v => (st, [VmEvent.type_check (lua_type_of v)], Res.ok (lua_type_of v))
  | none => (st, [VmEvent.type_check LuaTypeTag.tnone], Res.ok LuaTypeTag.tnone)

/-- Fatal internal assertion `lua_internal_assert!` — aborts (never returns
a recoverable error) when the condition is false. -/
def lua_internal_assert (cond : Bool) (msg : Str) : M Unit := fun st =>
  if cond then (st, [], Res.ok ()) else (st, [], Res.fatal msg)

/-- Modelled from the spec: `read_string_at` (`ffi::lua_tolstring`) on a
string operand — returns the pointer into VM-owned, immutable storage
(modelled as the stored buffer, which the VM keeps nul-terminated) and the
content length, which excludes the terminator.  Non-string operands are not
modelled: the one call site asserts the operand is a string first. -/
def lua_tolstring (idx : Int) : M (List Nat × Nat) := fun st =>
  match stackValueAt st idx with
  | some (LuaValue.str c) =>
      (st, [VmEvent.read_string c.length], Res.ok (c ++ [0], c.length))
  | _ => (st, [], Res.fatal ("lua_tolstring: operand is not a string"))

/-- Stack removal `pop(vm, n)` (`ffi::lua_pop`): remove `n` values from the
stack top. -/
def lua_pop (n : Nat) : M Unit := fun st =>
  ({ st with stack := st.stack.drop n }, [VmEvent.pop n], Res.ok ())

/-- Slice construction `slice::from_raw_parts(data, len)`: the first `len`
bytes at the pointer (the pointer is modelled as the buffer it points
into). -/
def from_raw_parts (data : List Nat) (len : Nat) : List Nat := data.take len

/-- Restore the stack to depth `base`: `none` when the stack is shorter
than `base` (the underflow case), otherwise drop the surplus. -/
def restore (base : Nat) (st : Vm) : Option Vm :=
  if st.stack.length < base then none
  else some { st with stack := st.stack.drop (st.stack.length - base) }

/-- Modelled from the spec: `with_guard` / the rlua `stack_guard` — records
the current stack top as `base`, checks capacity for `extra` additional
slots (fatal on failure), runs the body, then on completion (success or
propagated recoverable failure) compares the new top with `base`: shorter
is a fatal internal-consistency violation, a surplus is popped so the stack
returns exactly to `base`.  A fatal body outcome aborts with no restoration. -/
def stack_guard (extra : Nat) (body : M α) : M α := fun st =>
  let base := st.stack.length
  if base + extra ≤ st.capacity then
    match body st with
    | (st1, tr, Res.fatal m) =>
        (st1, VmEvent.guard_open base extra :: tr, Res.fatal m)
    | (st1, tr, r) =>
        match restore base st1 with
        | some st2 =>
            (st2, VmEvent.guard_open base extra :: (tr ++ [VmEvent.guard_close]), r)
        | none =>
            (st1, VmEvent.guard_open base extra :: tr,
             Res.fatal ("too many stack values were popped"))
  else
    (st, [VmEvent.guard_open base extra], Res.fatal ("stack capacity exhausted"))

/-- Handle to an internal Lua string (`rlua::String`), wrapping one managed
reference known to point at a string value. -/
structure String where
  ref : LuaRef
deriving DecidableEq, Repr

/-- Accessor `String::as_bytes_with_nul`: inside a stack guard, reserve one slot,
push the referenced value, fatally assert it is a string, read its pointer
and length, pop the temporary slot, and return the `size + 1` bytes
(content plus terminator). -/
def String.as_bytes_with_nul (s : String) : M (List Nat) :=
  stack_guard 0 (do
    check_stack 1
    push_ref s.ref
    let t ← lua_type (-1)
    lua_internal_assert (t == LuaTypeTag.tstring) "string ref is not string type"
    let ds ← lua_tolstring (-1)
    lua_pop 1
    pure (from_raw_parts ds.1 (ds.2 + 1)))

/-- Accessor `String::as_bytes`: the bytes with the trailing nul removed
(`&nulled[..nulled.len() - 1]`; an empty slice would make the index
computation panic, modelled as the fatal channel). -/
def String.as_bytes (s : String) : M (List Nat) := do
  let nulled ← s.as_bytes_with_nul
  if nulled.length = 0 then
    fun st => (st, [], Res.fatal ("panicked: slice index underflow"))
  else
    pure (nulled.take (nulled.length - 1))

/-- Is the byte a UTF-8 continuation byte (`0x80 ..= 0xBF`)? -/
def utf8Cont (b : Nat) : Bool := 0x80 ≤ b && b ≤ 0xBF

/-- Admissible second byte of a three-byte UTF-8 sequence headed by `b`
(narrowed for `0xE0` to exclude overlong forms and for `0xED` to exclude
surrogates, as the Rust validator does). -/
def utf8Second3 (b c : Nat) : Bool :=
  if b = 0xE0 then 0xA0 ≤ c && c ≤ 0xBF
  else if b = 0xED then 0x80 ≤ c && c ≤ 0x9F
  else utf8Cont c

/-- Admissible second byte of a four-byte UTF-8 sequence headed by `b`
(narrowed for `0xF0` to exclude overlong forms and for `0xF4` to cap at
`U+10FFFF`, as the Rust validator does). -/
def utf8Second4 (b c : Nat) : Bool :=
  if b = 0xF0 then 0x90 ≤ c && c ≤ 0xBF
  else if b = 0xF4 then 0x80 ≤ c && c ≤ 0x8F
  else utf8Cont c

/-- Modelled from the spec: text (UTF-8) well-formedness check, following
the byte-range table of the `str::from_utf8` validator in Rust.  Returns `none`
when the whole input is well-formed, and `some i` with `i` the start index
of the first offending sequence otherwise. -/
def utf8Check : List Nat → Option Nat
  | [] => none
  | b :: rest =>
    if b ≤ 0x7F then
      Option.map (· + 1) (utf8Check rest)
    else if 0xC2 ≤ b && b ≤ 0xDF then
      match rest with
      | c1 :: rest2 =>
        if utf8Cont c1 then Option.map (· + 2) (utf8Check rest2) else some 0
      | [] => some 0
    else if 0xE0 ≤ b && b ≤ 0xEF then
      match rest with
      | c1 :: c2 :: rest3 =>
        if utf8Second3 b c1 && utf8Cont c2 then Option.map (· + 3) (utf8Check rest3)
        else some 0
      | _ => some 0
    else if 0xF0 ≤ b && b ≤ 0xF4 then
      match rest with
      | c1 :: c2 :: c3 :: rest4 =>
        if utf8Second4 b c1 && utf8Cont c2 && utf8Cont c3 then
          Option.map (· + 4) (utf8Check rest4)
        else some 0
      | _ => some 0
    else some 0

/-- Validation failure of `from_utf8`, carrying the index from which the
input stops being well-formed (the Rust `Utf8Error::valid_up_to` field). -/
structure Utf8Error where
  valid_up_to : Nat
deriving DecidableEq, Repr

/-- Modelled from the spec: `str::from_utf8` — a validating reinterpretation
of the same bytes: on success the result is the input byte list itself (a
`&str` is modelled by the bytes it points at); no allocation or copy. -/
def from_utf8 (bs : List Nat) : Except Utf8Error (List Nat) :=
  match utf8Check bs with
  | none => Except.ok bs
  | some i => Except.error ⟨i⟩

/-- Modelled from the spec: the human-readable validation-failure message
(Rust renders the `Utf8Error` with `e.to_string()`). -/
def Utf8Error.render (e : Utf8Error) : Str :=
  "invalid utf-8 sequence from index " ++ Nat.repr e.valid_up_to

/-- Accessor `String::to_str`: validate `as_bytes()` as UTF-8; on failure,
map the error to `Error::FromLuaConversionError` with source kind
`"string"`, target kind `"&str"`, and the rendered validation message. -/
def String.to_str (s : String) : M (List Nat) := do
  let bs ← s.as_bytes
  match from_utf8 bs with
  | Except.ok t => pure t
  | Except.error e =>
      raise (Error.FromLuaConversionError ("string") "&str" (some e.render))

/-- The bound `T: AsRef<[u8]>` of the `PartialEq` impl in the source: anything
that can expose its bytes.  Byte slices, owned byte buffers and text values
expose themselves (std impls); the string handle exposes `as_bytes` (the
`impl AsRef<[u8]> for String` of the source). -/
class AsRefBytes (τ : Type) where
  as_ref : τ → M (List Nat)

instance instAsRefBytesBytes : AsRefBytes (List Nat) where
  as_ref bs := M.pure bs

instance instAsRefBytesString : AsRefBytes String where
  as_ref s := s.as_bytes

/-- Equality from the `impl<T: AsRef<[u8]>> PartialEq<T> for
String`: `self.as_bytes() == other.as_ref()`. -/
def String.eq [AsRefBytes τ] (s : String) (other : τ) : M Bool := do
  let a ← s.as_bytes
  let b ← AsRefBytes.as_ref other
  pure (a == b)

/-- An arbitrary later stack operation, used to state that byte views are
unaffected by unrelated stack activity. -/
inductive StackOp where
  | push : LuaValue → StackOp
  | popn : Nat → StackOp
deriving DecidableEq, Repr

/-- Apply one stack operation to the VM. -/
def applyStackOp : StackOp → Vm → Vm
  | StackOp.push v, st => { st with stack := v :: st.stack }
  | StackOp.popn n, st => { st with stack := st.stack.drop n }

/-- Apply a sequence of stack operations to the VM. -/
def applyStackOps (ops : List StackOp) (st : Vm) : Vm :=
  ops.foldl (fun s o => applyStackOp o s) st

/-- The exact sequence of VM primitives that one successful
`as_bytes_with_nul` call invokes, in order (`size` is the VM-reported
content length). -/
def nulReadTrace (st : Vm) (s : String) (size : Nat) : List VmEvent :=
  [VmEvent.guard_open st.stack.length 0, VmEvent.grow_stack 1,
   VmEvent.push_registered s.ref.registry_id,
   VmEvent.type_check LuaTypeTag.tstring,
   VmEvent.read_string size, VmEvent.pop 1, VmEvent.guard_close]

/-- A small VM used to evaluate the development on concrete inputs: five
registered values — a UTF-8 string, a non-UTF-8 string, a string with an
embedded zero byte, the empty string, and a non-string value. -/
def wVm : Vm :=
  { stack := [],
    registry :=
      [(1, LuaValue.str [116, 101, 115, 116]),
       (2, LuaValue.str [116, 101, 115, 116, 255]),
       (3, LuaValue.str [116, 101, 115, 116, 0, 88]),
       (4, LuaValue.str []),
       (5, LuaValue.number 42)],
    capacity := 8 }

/-- Handle to the UTF-8 string `"test"` in `wVm`. -/
def wTest : String := ⟨⟨1⟩⟩

/-- Handle to the non-UTF-8 string `"test\xFF"` in `wVm`. -/
def wBad : String := ⟨⟨2⟩⟩

/-- Handle to the embedded-zero string `"test\0X"` in `wVm`. -/
def wZero : String := ⟨⟨3⟩⟩

/-- Handle to the empty string in `wVm`. -/
def wEmpty : String := ⟨⟨4⟩⟩

/-- Handle whose registry slot holds a number, not a string, in `wVm`. -/
def wNum : String := ⟨⟨5⟩⟩

/-- A guard body that pushes two temporaries and propagates a recoverable
failure without popping them, used to evaluate the restoration the guard performs on
the failure path. -/
def wBody : M Unit := fun st =>
  ({ st with stack := LuaValue.nil :: LuaValue.nil :: st.stack }, [],
   Res.err (Error.FromLuaConversionError ("string") "&str" none))

/-- A sequence of unrelated stack operations used to evaluate the
independence of byte views from later stack activity. -/
def wOps : List StackOp :=
  [StackOp.push LuaValue.nil, StackOp.popn 1, StackOp.push (LuaValue.number 1)]

/-- Structure eta for `Vm`, used to recognise a restored state. -/
@[simp] theorem Vm.eta (st : Vm) : Vm.mk st.stack st.registry st.capacity = st := rfl

/-- Central computation lemma: on a handle whose registry slot holds a
string with content `c`, and with room for one more stack slot,
`as_bytes_with_nul` returns the nul-terminated buffer `c ++ [0]`, restores
the state exactly, and invokes exactly the primitives of `nulReadTrace`. -/
theorem as_bytes_with_nul_ok (st : Vm) (s : String) (c : List Nat)
    (hreg : st.registry.lookup s.ref.registry_id = some (LuaValue.str c))
    (hcap : st.stack.length + 1 ≤ st.capacity) :
    s.as_bytes_with_nul st = (st, nulReadTrace st s c.length, Res.ok (c ++ [0])) := by
  have hle : st.stack.length + 0 ≤ st.capacity := by omega
  have hle2 : st.stack.length ≤ st.capacity := by omega
  have htake : (c ++ [0]).take (c.length + 1) = c ++ [0] := by
    simp [List.take_append]
  simp [String.as_bytes_with_nul, stack_guard, M.bind, M.pure, check_stack,
    push_ref, lua_type, lua_internal_assert, lua_tolstring, lua_pop,
    from_raw_parts, restore, stackValueAt, nulReadTrace, lua_type_of,
    hreg, hcap, hle, hle2, htake]

/-- Computation lemma for `as_bytes`: same trace, content without the
terminator, state restored. -/
theorem as_bytes_ok (st : Vm) (s : String) (c : List Nat)
    (hreg : st.registry.lookup s.ref.registry_id = some (LuaValue.str c))
    (hcap : st.stack.length + 1 ≤ st.capacity) :
    s.as_bytes st = (st, nulReadTrace st s c.length, Res.ok c) := by
  have hlen : (c ++ [0]).length - 1 = c.length := by simp
  have htake : (c ++ [0]).take c.length = c := by
    simp [List.take_left]
  simp [String.as_bytes, M.bind, M.pure, as_bytes_with_nul_ok st s c hreg hcap,
    hlen, htake]

/-- Computation lemma for `to_str` on UTF-8-valid content. -/
theorem to_str_ok (st : Vm) (s : String) (c : List Nat)
    (hreg : st.registry.lookup s.ref.registry_id = some (LuaValue.str c))
    (hcap : st.stack.length + 1 ≤ st.capacity)
    (hu : utf8Check c = none) :
    s.to_str st = (st, nulReadTrace st s c.length, Res.ok c) := by
  simp [String.to_str, M.bind, M.pure, as_bytes_ok st s c hreg hcap,
    from_utf8, hu]

/-- Computation lemma for `to_str` on content that is not valid UTF-8. -/
theorem to_str_err (st : Vm) (s : String) (c : List Nat) (i : Nat)
    (hreg : st.registry.lookup s.ref.registry_id = some (LuaValue.str c))
    (hcap : st.stack.length + 1 ≤ st.capacity)
    (hu : utf8Check c = some i) :
    s.to_str st = (st, nulReadTrace st s c.length,
      Res.err (Error.FromLuaConversionError ("string") "&str"
        (some (Utf8Error.render ⟨i⟩)))) := by
  simp [String.to_str, M.bind, M.pure, as_bytes_ok st s c hreg hcap,
    from_utf8, hu, raise]

/-- Computation lemma for `as_bytes_with_nul` on a handle whose registry
slot holds a non-string value: the internal type assertion aborts. -/
theorem as_bytes_with_nul_nonstring (st : Vm) (s : String) (v : LuaValue)
    (hreg : st.registry.lookup s.ref.registry_id = some v)
    (hv : lua_type_of v ≠ LuaTypeTag.tstring)
    (hcap : st.stack.length + 1 ≤ st.capacity) :
    s.as_bytes_with_nul st =
      ({ st with stack := v :: st.stack },
       [VmEvent.guard_open st.stack.length 0, VmEvent.grow_stack 1,
        VmEvent.push_registered s.ref.registry_id,
        VmEvent.type_check (lua_type_of v)],
       Res.fatal ("string ref is not string type")) := by
  have hle : st.stack.length + 0 ≤ st.capacity := by omega
  have hle2 : st.stack.length ≤ st.capacity := by omega
  have hb : (lua_type_of v == LuaTypeTag.tstring) = false := by
    simpa using hv
  simp [String.as_bytes_with_nul, stack_guard, M.bind, M.pure, check_stack,
    push_ref, lua_type, lua_internal_assert, lua_tolstring, lua_pop,
    stackValueAt, hreg, hcap, hle, hle2, hb]

/-- A successful `restore` brings the stack back to exactly `base` and
touches nothing else. -/
theorem restore_some (base : Nat) (st st' : Vm) (h : restore base st = some st') :
    st'.stack.length = base ∧ st'.registry = st.registry := by
  unfold restore at h
  split at h
  · cases h
  · next hge =>
      cases h
      refine ⟨?_, rfl⟩
      simp only [List.length_drop]
      omega

/-- Stack operations do not touch the registry or the capacity. -/
theorem applyStackOps_registry (ops : List StackOp) (st : Vm) :
    (applyStackOps ops st).registry = st.registry ∧
    (applyStackOps ops st).capacity = st.capacity := by
  induction ops generalizing st with
  | nil => exact ⟨rfl, rfl⟩
  | cons o ops ih =>
    have h1 : (applyStackOp o st).registry = st.registry ∧
        (applyStackOp o st).capacity = st.capacity := by
      cases o <;> exact ⟨rfl, rfl⟩
    have h2 := ih (applyStackOp o st)
    simp only [applyStackOps, List.foldl_cons] at h2 ⊢
    exact ⟨h2.1.trans h1.1, h2.2.trans h1.2⟩

/-- Guard balance: whenever `stack_guard` returns at all (any non-aborting
channel, i.e. a normal value or a propagated recoverable failure), the
stack depth afterwards equals the depth recorded before the body ran. -/
theorem stack_guard_balance_aux (extra : Nat) (body : M α) (st st' : Vm)
    (tr : List VmEvent) (r : Res α)
    (h : stack_guard extra body st = (st', tr, r))
    (hok : ∀ m, r ≠ Res.fatal m) :
    st'.stack.length = st.stack.length := by
  unfold stack_guard at h
  dsimp only at h
  split at h
  · split at h
    · simp only [Prod.mk.injEq] at h
      exact absurd h.2.2.symm (hok _)
    · split at h
      · rename_i st2 hr
        simp only [Prod.mk.injEq] at h
        obtain ⟨h1, -, -⟩ := h
        subst h1
        exact (restore_some st.stack.length _ _ hr).1
      · simp only [Prod.mk.injEq] at h
        exact absurd h.2.2.symm (hok _)
  · simp only [Prod.mk.injEq] at h
    exact absurd h.2.2.symm (hok _)

/-- Claim C1 — for every string handle, the slice returned by `as_bytes`
equals the slice returned by `as_bytes_with_nul` with its final byte
removed: its length is exactly one less, and the final byte of the
terminator-inclusive view is the zero terminator byte. -/
theorem C1_terminator_exclusion (st : Vm) (s : String) (c : List Nat)
    (hreg : st.registry.lookup s.ref.registry_id = some (LuaValue.str c))
    (hcap : st.stack.length + 1 ≤ st.capacity) :
    ∃ bs bsn,
      (s.as_bytes st).2.2 = Res.ok bs ∧
      (s.as_bytes_with_nul st).2.2 = Res.ok bsn ∧
      bs = bsn.dropLast ∧
      bs.length + 1 = bsn.length ∧
      bsn.getLast? = some 0 := by
  refine ⟨c, c ++ [0], ?_, ?_, ?_, ?_, ?_⟩
  · rw [as_bytes_ok st s c hreg hcap]
  · rw [as_bytes_with_nul_ok st s c hreg hcap]
  · simp
  · simp
  · simp

/-- Claim C2 — `to_str` fails if and only if the bytes returned by
`as_bytes` are not well-formed UTF-8, and in that case it returns a
conversion error carrying the source kind "string", the target kind
"&str", and a human-readable validation-failure message; it fails for no
other reason. -/
theorem C2_to_str_error_conditions (st : Vm) (s : String) (c : List Nat)
    (hreg : st.registry.lookup s.ref.registry_id = some (LuaValue.str c))
    (hcap : st.stack.length + 1 ≤ st.capacity) :
    (utf8Check c = none →
      s.to_str st = (st, nulReadTrace st s c.length, Res.ok c)) ∧
    (∀ i, utf8Check c = some i →
      s.to_str st = (st, nulReadTrace st s c.length,
        Res.err (Error.FromLuaConversionError ("string") "&str"
          (some (Utf8Error.render ⟨i⟩))))) :=
  ⟨fun hu => to_str_ok st s c hreg hcap hu,
   fun i hu => to_str_err st s c i hreg hcap hu⟩

/-- Claim C3 — on UTF-8-valid content `to_str` succeeds and the byte
representation of the returned text equals `as_bytes` exactly; on invalid
content `to_str` fails with a conversion error while `as_bytes` still
returns the raw bytes unchanged. -/
theorem C3_round_trip (st : Vm) (s : String) (c : List Nat)
    (hreg : st.registry.lookup s.ref.registry_id = some (LuaValue.str c))
    (hcap : st.stack.length + 1 ≤ st.capacity) :
    (utf8Check c = none →
      ∃ t, (s.to_str st).2.2 = Res.ok t ∧ (s.as_bytes st).2.2 = Res.ok t) ∧
    (utf8Check c ≠ none →
      (∃ msg, (s.to_str st).2.2 =
        Res.err (Error.FromLuaConversionError ("string") "&str" msg)) ∧
      (s.as_bytes st).2.2 = Res.ok c) := by
  constructor
  · intro hu
    exact ⟨c, by rw [to_str_ok st s c hreg hcap hu],
           by rw [as_bytes_ok st s c hreg hcap]⟩
  · intro hu
    obtain ⟨i, hi⟩ := Option.ne_none_iff_exists'.mp hu
    exact ⟨⟨some (Utf8Error.render ⟨i⟩), by rw [to_str_err st s c i hreg hcap hi]⟩,
           by rw [as_bytes_ok st s c hreg hcap]⟩

/-- Claim C4 — the equality comparison with any byte-sequence-like value
(a raw byte list, or another string handle through its `AsRef` view)
returns true precisely when the content bytes of the handle are byte-for-byte
identical to the bytes of the other value, false precisely when they differ in
any way (including only in the last content byte); the terminator is never
part of the comparison. -/
theorem C4_eq_iff_content (st : Vm) (s : String) (c : List Nat)
    (hreg : st.registry.lookup s.ref.registry_id = some (LuaValue.str c))
    (hcap : st.stack.length + 1 ≤ st.capacity) :
    (∀ bs : List Nat, ((String.eq s bs st).2.2 = Res.ok true ↔ c = bs)) ∧
    (∀ bs : List Nat, ((String.eq s bs st).2.2 = Res.ok false ↔ c ≠ bs)) ∧
    (∀ (t : String) (d : List Nat),
      st.registry.lookup t.ref.registry_id = some (LuaValue.str d) →
      ((String.eq s t st).2.2 = Res.ok true ↔ c = d)) := by
  have hbs : ∀ bs : List Nat,
      String.eq s bs st = (st, nulReadTrace st s c.length, Res.ok (c == bs)) := by
    intro bs
    simp [String.eq, M.bind, M.pure, as_bytes_ok st s c hreg hcap,
      AsRefBytes.as_ref, instAsRefBytesBytes]
  refine ⟨?_, ?_, ?_⟩
  · intro bs
    rw [hbs bs]
    simp
  · intro bs
    rw [hbs bs]
    simp
  · intro t d hregt
    have ht : String.eq s t st =
        (st, nulReadTrace st s c.length ++ nulReadTrace st t d.length,
         Res.ok (c == d)) := by
      simp [String.eq, M.bind, M.pure, as_bytes_ok st s c hreg hcap,
        as_bytes_ok st t d hregt hcap, AsRefBytes.as_ref, instAsRefBytesString]
    rw [ht]
    simp

/-- Claim C5 — for every body computation run inside a StackGuard (in
particular the body run by `as_bytes_with_nul`), the VM stack depth after
the guard returns equals the depth recorded before the body ran, on every
returning exit path: normal return, early return, or propagated
recoverable failure (a fatal outcome aborts and does not return). -/
theorem C5_stack_balance {α : Type} (extra : Nat) (body : M α) (st st' : Vm)
    (tr : List VmEvent) (r : Res α)
    (h : stack_guard extra body st = (st', tr, r))
    (hok : ∀ m, r ≠ Res.fatal m) :
    st'.stack.length = st.stack.length :=
  stack_guard_balance_aux extra body st st' tr r h hok

/-- Claim C6 — `as_bytes_with_nul` performs exactly these steps in order:
open a StackGuard, reserve one extra stack slot, push the referenced value
via the managed reference, check the runtime type of the pushed value (string,
enforced by the fatal internal assertion), read the pointer and the
VM-reported byte length, pop the one temporary stack slot, close the
guard; it returns a slice of length `size + 1` into VM-owned memory. -/
theorem C6_exact_steps (st : Vm) (s : String) (c : List Nat)
    (hreg : st.registry.lookup s.ref.registry_id = some (LuaValue.str c))
    (hcap : st.stack.length + 1 ≤ st.capacity) :
    s.as_bytes_with_nul st =
      (st,
       [VmEvent.guard_open st.stack.length 0,
        VmEvent.grow_stack 1,
        VmEvent.push_registered s.ref.registry_id,
        VmEvent.type_check LuaTypeTag.tstring,
        VmEvent.read_string c.length,
        VmEvent.pop 1,
        VmEvent.guard_close],
       Res.ok (c ++ [0])) ∧
    (c ++ [0]).length = c.length + 1 :=
  ⟨as_bytes_with_nul_ok st s c hreg hcap, by simp⟩

/-- Claim C7 — every read of the byte slots checks the runtime type of the
referenced value: a non-string value makes `as_bytes_with_nul` abort
through the fatal internal-assertion channel (never the recoverable error
channel), and under the precondition that the managed reference points at
a string value the failure branch of the assertion is unreachable and the read
succeeds. -/
theorem C7_fatal_type_assertion (st : Vm) (s : String) :
    (∀ v, st.registry.lookup s.ref.registry_id = some v →
      lua_type_of v ≠ LuaTypeTag.tstring →
      st.stack.length + 1 ≤ st.capacity →
      (s.as_bytes_with_nul st).2.2 = Res.fatal ("string ref is not string type")) ∧
    (∀ c, st.registry.lookup s.ref.registry_id = some (LuaValue.str c) →
      st.stack.length + 1 ≤ st.capacity →
      (s.as_bytes_with_nul st).2.2 = Res.ok (c ++ [0])) := by
  constructor
  · intro v hreg hv hcap
    rw [as_bytes_with_nul_nonstring st s v hreg hv hcap]
  · intro c hreg hcap
    rw [as_bytes_with_nul_ok st s c hreg hcap]

/-- Claim C8 — content containing embedded zero bytes is returned by
`as_bytes` in full, not truncated at the first embedded zero; only the
single trailing terminator byte is excluded from the terminator-inclusive
view. -/
theorem C8_embedded_zeros (st : Vm) (s : String) (c : List Nat)
    (hreg : st.registry.lookup s.ref.registry_id = some (LuaValue.str c))
    (hcap : st.stack.length + 1 ≤ st.capacity)
    (hz : 0 ∈ c) :
    (s.as_bytes st).2.2 = Res.ok c ∧
    (s.as_bytes_with_nul st).2.2 = Res.ok (c ++ [0]) ∧
    c.takeWhile (fun b => b != 0) ≠ c := by
  refine ⟨by rw [as_bytes_ok st s c hreg hcap],
          by rw [as_bytes_with_nul_ok st s c hreg hcap], ?_⟩
  intro heq
  have h0 : ((0 : Nat) != 0) = true := List.takeWhile_eq_self_iff.mp heq 0 hz
  simp at h0

/-- Claim C9 — the byte view obtained from a string handle is unchanged
after the StackGuard scope that produced it has exited and after later,
unrelated stack operations have run: reading again after any sequence of
stack pushes and pops yields the same bytes, and stack operations never
touch the registry backing the handle. -/
theorem C9_view_lifetime (st : Vm) (s : String) (c : List Nat)
    (ops : List StackOp)
    (hreg : st.registry.lookup s.ref.registry_id = some (LuaValue.str c))
    (hcap1 : st.stack.length + 1 ≤ st.capacity)
    (hcap2 : (applyStackOps ops st).stack.length + 1 ≤ st.capacity) :
    (s.as_bytes_with_nul st).2.2 = Res.ok (c ++ [0]) ∧
    (s.as_bytes_with_nul (applyStackOps ops st)).2.2 = Res.ok (c ++ [0]) ∧
    (applyStackOps ops st).registry = st.registry := by
  obtain ⟨hr, hc⟩ := applyStackOps_registry ops st
  have hreg2 : (applyStackOps ops st).registry.lookup s.ref.registry_id =
      some (LuaValue.str c) := by rw [hr]; exact hreg
  have hcap2' : (applyStackOps ops st).stack.length + 1 ≤
      (applyStackOps ops st).capacity := by rw [hc]; exact hcap2
  refine ⟨by rw [as_bytes_with_nul_ok st s c hreg hcap1], ?_, hr⟩
  rw [as_bytes_with_nul_ok _ s c hreg2 hcap2']

/-- Claim C10 — the slice returned by `as_bytes_with_nul` always has length
at least one (it is `size + 1` for the VM-reported content length `size`),
so the index computation `nulled.len() - 1` in `as_bytes` cannot
underflow: `as_bytes` never reaches its failure branch, even for the empty
string. -/
theorem C10_no_underflow (st : Vm) (s : String) (c : List Nat)
    (hreg : st.registry.lookup s.ref.registry_id = some (LuaValue.str c))
    (hcap : st.stack.length + 1 ≤ st.capacity) :
    ∃ bsn, (s.as_bytes_with_nul st).2.2 = Res.ok bsn ∧
      bsn.length = c.length + 1 ∧ 1 ≤ bsn.length ∧
      (s.as_bytes st).2.2 = Res.ok (bsn.take (bsn.length - 1)) := by
  refine ⟨c ++ [0], by rw [as_bytes_with_nul_ok st s c hreg hcap],
          by simp, by simp, ?_⟩
  rw [as_bytes_ok st s c hreg hcap]
  have : (c ++ [0]).length - 1 = c.length := by simp
  rw [this]
  simp [List.take_left]

/-- Witness for C1 at the handle to the four-byte string `"test"`. -/
theorem C1_witness :
    wVm.registry.lookup wTest.ref.registry_id =
        some (LuaValue.str [116, 101, 115, 116]) ∧
    wVm.stack.length + 1 ≤ wVm.capacity ∧
    (∃ bs bsn,
      (wTest.as_bytes wVm).2.2 = Res.ok bs ∧
      (wTest.as_bytes_with_nul wVm).2.2 = Res.ok bsn ∧
      bs = bsn.dropLast ∧
      bs.length + 1 = bsn.length ∧
      bsn.getLast? = some 0) :=
  ⟨by decide, by decide,
   C1_terminator_exclusion wVm wTest [116, 101, 115, 116] (by decide) (by decide)⟩

/-- Witness for C2 at the non-UTF-8 string `"test\xFF"`, whose validation fails from index 4. -/
theorem C2_witness :
    wVm.registry.lookup wBad.ref.registry_id =
        some (LuaValue.str [116, 101, 115, 116, 255]) ∧
    wVm.stack.length + 1 ≤ wVm.capacity ∧
    utf8Check [116, 101, 115, 116, 255] = some 4 ∧
    wBad.to_str wVm = (wVm, nulReadTrace wVm wBad 5,
      Res.err (Error.FromLuaConversionError ("string") "&str"
        (some (Utf8Error.render ⟨4⟩)))) :=
  ⟨by decide, by decide, by decide,
   (C2_to_str_error_conditions wVm wBad [116, 101, 115, 116, 255]
      (by decide) (by decide)).2 4 (by decide)⟩

/-- Witness for C3 at the non-UTF-8 string `"test\xFF"`. -/
theorem C3_witness :
    wVm.registry.lookup wBad.ref.registry_id =
        some (LuaValue.str [116, 101, 115, 116, 255]) ∧
    wVm.stack.length + 1 ≤ wVm.capacity ∧
    utf8Check [116, 101, 115, 116, 255] ≠ none ∧
    ((∃ msg, (wBad.to_str wVm).2.2 =
        Res.err (Error.FromLuaConversionError ("string") "&str" msg)) ∧
      (wBad.as_bytes wVm).2.2 = Res.ok [116, 101, 115, 116, 255]) :=
  ⟨by decide, by decide, by decide,
   (C3_round_trip wVm wBad [116, 101, 115, 116, 255] (by decide) (by decide)).2
     (by decide)⟩

/-- Witness for C4: equality holds against the identical byte list and fails against one differing only in the last content byte. -/
theorem C4_witness :
    wVm.registry.lookup wTest.ref.registry_id =
        some (LuaValue.str [116, 101, 115, 116]) ∧
    wVm.stack.length + 1 ≤ wVm.capacity ∧
    (String.eq wTest ([116, 101, 115, 116] : List Nat) wVm).2.2 = Res.ok true ∧
    (String.eq wTest ([116, 101, 115, 117] : List Nat) wVm).2.2 = Res.ok false :=
  ⟨by decide, by decide,
   ((C4_eq_iff_content wVm wTest [116, 101, 115, 116] (by decide) (by decide)).1
      [116, 101, 115, 116]).mpr rfl,
   ((C4_eq_iff_content wVm wTest [116, 101, 115, 116] (by decide) (by decide)).2.1
      [116, 101, 115, 117]).mpr (by decide)⟩

/-- Witness for C5: a guard body that pushes two temporaries and propagates a recoverable failure still leaves the stack at its prior depth. -/
theorem C5_witness :
    stack_guard 0 wBody wVm =
      (wVm, [VmEvent.guard_open 0 0, VmEvent.guard_close],
       Res.err (Error.FromLuaConversionError ("string") "&str" none)) ∧
    wVm.stack.length = wVm.stack.length :=
  ⟨by decide,
   C5_stack_balance 0 wBody wVm wVm
     [VmEvent.guard_open 0 0, VmEvent.guard_close]
     (Res.err (Error.FromLuaConversionError ("string") "&str" none))
     (by decide) (fun m h => Res.noConfusion h)⟩

/-- Witness for C6: the concrete primitive trace of one read of `"test"`. -/
theorem C6_witness :
    wVm.registry.lookup wTest.ref.registry_id =
        some (LuaValue.str [116, 101, 115, 116]) ∧
    wVm.stack.length + 1 ≤ wVm.capacity ∧
    (wTest.as_bytes_with_nul wVm =
      (wVm,
       [VmEvent.guard_open 0 0, VmEvent.grow_stack 1,
        VmEvent.push_registered 1, VmEvent.type_check LuaTypeTag.tstring,
        VmEvent.read_string 4, VmEvent.pop 1, VmEvent.guard_close],
       Res.ok [116, 101, 115, 116, 0]) ∧
     ([116, 101, 115, 116, 0] : List Nat).length = 4 + 1) :=
  ⟨by decide, by decide,
   C6_exact_steps wVm wTest [116, 101, 115, 116] (by decide) (by decide)⟩

/-- Witness for C7: a handle whose slot holds a number aborts fatally; a handle whose slot holds a string succeeds. -/
theorem C7_witness :
    wVm.registry.lookup wNum.ref.registry_id = some (LuaValue.number 42) ∧
    lua_type_of (LuaValue.number 42) ≠ LuaTypeTag.tstring ∧
    wVm.registry.lookup wTest.ref.registry_id =
        some (LuaValue.str [116, 101, 115, 116]) ∧
    wVm.stack.length + 1 ≤ wVm.capacity ∧
    (wNum.as_bytes_with_nul wVm).2.2 =
        Res.fatal ("string ref is not string type") ∧
    (wTest.as_bytes_with_nul wVm).2.2 = Res.ok [116, 101, 115, 116, 0] :=
  ⟨by decide, by decide, by decide, by decide,
   (C7_fatal_type_assertion wVm wNum).1 (LuaValue.number 42)
     (by decide) (by decide) (by decide),
   (C7_fatal_type_assertion wVm wTest).2 [116, 101, 115, 116]
     (by decide) (by decide)⟩

/-- Witness for C8 at the six-byte content `t e s t \0 X`: the full sequence is returned, not the truncation at the embedded zero. -/
theorem C8_witness :
    wVm.registry.lookup wZero.ref.registry_id =
        some (LuaValue.str [116, 101, 115, 116, 0, 88]) ∧
    wVm.stack.length + 1 ≤ wVm.capacity ∧
    (0 : Nat) ∈ [116, 101, 115, 116, 0, 88] ∧
    ((wZero.as_bytes wVm).2.2 = Res.ok [116, 101, 115, 116, 0, 88] ∧
     (wZero.as_bytes_with_nul wVm).2.2 =
        Res.ok [116, 101, 115, 116, 0, 88, 0] ∧
     List.takeWhile (fun b => b != 0) [116, 101, 115, 116, 0, 88] ≠
       [116, 101, 115, 116, 0, 88]) :=
  ⟨by decide, by decide, by decide,
   C8_embedded_zeros wVm wZero [116, 101, 115, 116, 0, 88]
     (by decide) (by decide) (by decide)⟩

/-- Witness for C9: the same bytes are read before and after a push, a pop and another push. -/
theorem C9_witness :
    wVm.registry.lookup wTest.ref.registry_id =
        some (LuaValue.str [116, 101, 115, 116]) ∧
    wVm.stack.length + 1 ≤ wVm.capacity ∧
    (applyStackOps wOps wVm).stack.length + 1 ≤ wVm.capacity ∧
    ((wTest.as_bytes_with_nul wVm).2.2 = Res.ok [116, 101, 115, 116, 0] ∧
     (wTest.as_bytes_with_nul (applyStackOps wOps wVm)).2.2 =
        Res.ok [116, 101, 115, 116, 0] ∧
     (applyStackOps wOps wVm).registry = wVm.registry) :=
  ⟨by decide, by decide, by decide,
   C9_view_lifetime wVm wTest [116, 101, 115, 116] wOps
     (by decide) (by decide) (by decide)⟩

/-- Witness for C10 at the empty string: the nul-inclusive view has length one and the shortening step still succeeds. -/
theorem C10_witness :
    wVm.registry.lookup wEmpty.ref.registry_id = some (LuaValue.str []) ∧
    wVm.stack.length + 1 ≤ wVm.capacity ∧
    (∃ bsn, (wEmpty.as_bytes_with_nul wVm).2.2 = Res.ok bsn ∧
      bsn.length = ([] : List Nat).length + 1 ∧ 1 ≤ bsn.length ∧
      (wEmpty.as_bytes wVm).2.2 = Res.ok (bsn.take (bsn.length - 1))) :=
  ⟨by decide, by decide,
   C10_no_underflow wVm wEmpty [] (by decide) (by decide)⟩

end rlua
